import Mathlib

/-!
Verification of the myanimelist ingestion pipeline.

Shallow embedding of the Python sources:
  * `src/ingest/utils/anime.py`      — page-count probe, rate-aware page fetcher,
                                       pagination enumerator, upload driver
  * `src/ingest/utils/animestats.py` — per-identifier statistics batcher
  * `src/ingest/utils/storage.py`    — date-partitioned object sink
  * `src/ingest/main.py` + `src/ingest/utils/db.py` — staging→production merge
  * `src/transform/transform.py`     — score flattening

HTTP responses are modelled as explicit values handed to the functions by an
oracle (`page ↦ generation ↦ response`); each generation of the retry loops
issues exactly one request per outstanding item, so indexing the oracle by the
generation counter coincides with indexing by per-item call count.  JSON bodies
are opaque `Nat`s.  The unbounded `while` loops are run on explicit fuel: a
`none` result means the loop had not drained its work-set within `fuel`
iterations (the real loop would still be running).
-/

namespace MAL

/-! ## Rate-aware fetcher (src/ingest/utils/anime.py, get_anime_page) -/

/-- An HTTP response for a listing-page request: status code plus opaque JSON
body (only read when the status is 200). -/
structure PageResponse where
  status : Nat
  body : Nat
deriving DecidableEq

/-- The second component of the tuple `get_anime_page` returns: the parsed page
on 200, otherwise the request descriptor (the page URL, identified here by its
page number). -/
inductive PageResult where
  | payload (body : Nat)
  | url (page : Nat)
deriving DecidableEq

/-- The page number a `PageResult.url` descriptor points at (for a payload this
is unused by the code: only 429 results, which are always `url`s, are fed back
into the work-set). -/
def PageResult.pageOf : PageResult → Nat
  | .payload b => b
  | .url p => p

/-- A transport-layer error (connection reset, DNS failure, ...): raised by the
HTTP client before any status code exists. -/
structure TransportError where
  code : Nat
deriving DecidableEq

/-- `get_anime_page` (anime.py lines 41-56): returns `(status, page)` when the
status is 200 and `(status, url)` otherwise. -/
def get_anime_page (resp : PageResponse) (url : Nat) : Nat × PageResult :=
  if resp.status = 200 then (resp.status, PageResult.payload resp.body)
  else (resp.status, PageResult.url url)

/-- `get_anime_page` behind the transport layer: `session.get` may raise before
a status exists, and `get_anime_page` does not catch, so a transport error
propagates unchanged. -/
def get_anime_pageE (resp : Except TransportError PageResponse) (url : Nat) :
    Except TransportError (Nat × PageResult) :=
  Except.map (fun r => get_anime_page r url) resp

/-! ## Pagination enumerator (src/ingest/utils/anime.py, generate_anime_list) -/

/-- The state of `generate_anime_list`'s retry loop.  `pages` and `urls` are
the two local lists of the source; `dispatches` counts every fetch issued and
`errors` collects any error record the loop emits for a dropped page — the
source's loop body (anime.py lines 74-91) contains no logging or recording
statement, so no branch of the step appends to it. -/
structure EnumState where
  pages : List PageResult
  urls : List Nat
  dispatches : Nat
  errors : List Nat
deriving DecidableEq

/-- One generation of the retry loop (anime.py lines 75-90): fetch every URL in
the work-set, append the `res[1]` of every 200 result to `pages`, keep the
`res[1]` (= the URL) of every 429 result as the next work-set, and drop every
other result on the floor. -/
def generate_anime_list_step (oracle : Nat → Nat → PageResponse) (gen : Nat)
    (s : EnumState) : EnumState :=
  let results := s.urls.map (fun page => get_anime_page (oracle page gen) page)
  let pages := s.pages ++ (results.filter (fun res => res.1 == 200)).map (fun res => res.2)
  let retries := (results.filter (fun res => res.1 == 429)).map (fun res => res.2.pageOf)
  { pages := pages
    urls := retries
    dispatches := s.dispatches + s.urls.length
    errors := s.errors }

/-- The `while len(urls) > 0` loop of `generate_anime_list`, run on fuel. -/
def generate_anime_list_run (oracle : Nat → Nat → PageResponse) :
    Nat → Nat → EnumState → Option EnumState
  | 0, _, s => if s.urls.length > 0 then none else some s
  | Nat.succ fuel, gen, s =>
      if s.urls.length > 0 then
        generate_anime_list_run oracle fuel (gen + 1) (generate_anime_list_step oracle gen s)
      else some s

/-- `generate_anime_list` (anime.py lines 59-92): work-set = pages 1..page_count
(`range(1, page_count+1)`, empty when `page_count ≤ 0`), drained by the retry
loop.  Returns the final state; the source returns its `pages` field. -/
def generate_anime_list (oracle : Nat → Nat → PageResponse) (fuel : Nat)
    (page_count : Int) : Option EnumState :=
  generate_anime_list_run oracle fuel 0
    { pages := [], urls := List.range' 1 page_count.toNat, dispatches := 0, errors := [] }

/-! ## Page-count probe (src/ingest/utils/anime.py, get_page_count) -/

/-- The response to the initial `anime?sfw=true` probe; `last_visible_page` is
the pagination metadata read only on a 200. -/
structure PageCountResponse where
  status : Nat
  last_visible_page : Int
deriving DecidableEq

/-- `get_page_count` (anime.py lines 27-38): `(status, last_visible_page)` on a
200, `(status, 0)` otherwise. -/
def get_page_count (resp : PageCountResponse) : Nat × Int :=
  if resp.status = 200 then (resp.status, resp.last_visible_page)
  else (resp.status, 0)

/-! ## Stats batcher (src/ingest/utils/animestats.py) -/

/-- An HTTP response for a per-identifier statistics request. -/
structure StatsResponse where
  status : Nat
  body : Nat
deriving DecidableEq

/-- The second component of the tuple `get_stats` returns: on 200 the JSON
document with the `mal_id` key set to the requested identifier, otherwise the
identifier itself. -/
inductive StatsPayload where
  | doc (body : Nat) (mal_id : Nat)
  | ident (anime_id : Nat)
deriving DecidableEq

/-- The identifier a non-200 `get_stats` result carries (`res[1]` of a 429 row
is always an `ident`; the `doc` case reads the attached `mal_id` tag). -/
def StatsPayload.payloadId : StatsPayload → Nat
  | .doc _ i => i
  | .ident i => i

/-- `get_stats` (animestats.py lines 25-43): on 200 returns the document with
the identifier appended (`stats["mal_id"] = anime_id`), otherwise returns the
status paired with the identifier. -/
def get_stats (resp : StatsResponse) (anime_id : Nat) : Nat × StatsPayload :=
  if resp.status = 200 then (resp.status, StatsPayload.doc resp.body anime_id)
  else (resp.status, StatsPayload.ident anime_id)

/-- The three locals of `get_anime_stats`'s loop. -/
structure StatsState where
  anime_stats : List StatsPayload
  to_process : List Nat
  total_anime : Nat
deriving DecidableEq

/-- One generation of the `get_anime_stats` loop (animestats.py lines 58-75):
fetch every identifier in `to_process`, keep the 200 documents, re-queue the
429 identifiers, drop everything else, and shrink `total_anime` to collected
plus still-pending. -/
def get_anime_stats_step (oracle : Nat → Nat → StatsResponse) (gen : Nat)
    (s : StatsState) : StatsState :=
  let results := s.to_process.map (fun id => get_stats (oracle id gen) id)
  let success := (results.filter (fun res => res.1 == 200)).map (fun res => res.2)
  let retries := (results.filter (fun res => res.1 == 429)).map (fun res => res.2.payloadId)
  let anime_stats := s.anime_stats ++ success
  { anime_stats := anime_stats
    to_process := retries
    total_anime := anime_stats.length + retries.length }

/-- The `while len(anime_stats) < total_anime` loop, run on fuel. -/
def get_anime_stats_run (oracle : Nat → Nat → StatsResponse) :
    Nat → Nat → StatsState → Option StatsState
  | 0, _, s => if s.anime_stats.length < s.total_anime then none else some s
  | Nat.succ fuel, gen, s =>
      if s.anime_stats.length < s.total_anime then
        get_anime_stats_run oracle fuel (gen + 1) (get_anime_stats_step oracle gen s)
      else some s

/-- `get_anime_stats` (animestats.py lines 46-77): starts from the full
identifier list and returns the accumulated `anime_stats`. -/
def get_anime_stats (oracle : Nat → Nat → StatsResponse) (fuel : Nat)
    (anime_ids : List Nat) : Option (List StatsPayload) :=
  (get_anime_stats_run oracle fuel 0
      { anime_stats := [], to_process := anime_ids, total_anime := anime_ids.length }).map
    StatsState.anime_stats

/-- A stub server that answers each identifier's first `K` calls with 429 and
every later call with 200 carrying `body id` (each generation issues exactly
one call per pending identifier, so the generation counter is the per-id call
index). -/
def throttleOracle (K : Nat) (body : Nat → Nat) : Nat → Nat → StatsResponse :=
  fun id k => if k < K then { status := 429, body := 0 } else { status := 200, body := body id }

/-! ## Partitioned sink (src/ingest/utils/storage.py, write_to_storage) -/

/-- A calendar date, the partition key of the sink. -/
structure Date where
  year : Nat
  month : Nat
  day : Nat
deriving DecidableEq

/-- The error `write_to_storage` re-raises when `put_object` fails. -/
inductive StorageError where
  | clientError
deriving DecidableEq

/-- `write_to_storage` (storage.py lines 35-65): builds the key
`<prefix>/year=<Y>/month=<M>/day=<D>/<filename>` from the partition date,
attempts the put (re-raising on failure, modelled by `put_ok = false`) and
returns the key.  The source calls the second parameter `prefix`, a reserved
word here. -/
def write_to_storage (put_ok : Bool) (obj : Nat) (pre : String) (filename : String)
    (bucketname : String) (partition_date : Date) : Except StorageError String :=
  let dt := partition_date
  let partition_path_date :=
    "year=" ++ toString dt.year ++ "/month=" ++ toString dt.month ++ "/day=" ++ toString dt.day
  let key := pre ++ "/" ++ partition_path_date ++ "/" ++ filename
  if put_ok then Except.ok key else Except.error StorageError.clientError

/-! ## Upload driver (src/ingest/utils/anime.py, upload_all_anime) -/

/-- The ways the body of `upload_all_anime`'s `try` block can raise: the
explicit `ValueError` on a failed page-count probe, a `KeyError` out of
`extract_anime_data`, and a storage error out of `write_to_storage`. -/
inductive UploadError where
  | valueError
  | keyError
  | storageError
deriving DecidableEq

/-- The environment a run of `upload_all_anime` executes against. -/
structure UploadEnv where
  page_count_resp : PageCountResponse
  oracle : Nat → Nat → PageResponse
  extract_ok : Bool
  put_ok : Bool

/-- The observable outcome of `upload_all_anime`: the returned
`(error, location)` pair plus the page fetches dispatched and the storage puts
attempted along the way. -/
structure UploadOutcome where
  error : Option UploadError
  location : Option String
  dispatches : Nat
  put_attempts : Nat
deriving DecidableEq

/-- The tail of `upload_all_anime`'s `try` block once a page count is in hand:
fetch the raw pages, extract the configured fields, write to storage under the
fixed prefix and filename; any raise is caught by the enclosing handler and
returned as `(ex, None)`. -/
def upload_fetch_extract_write (env : UploadEnv) (fuel : Nat) (page_count : Int)
    (partition_date : Date) : Option UploadOutcome :=
  match generate_anime_list env.oracle fuel page_count with
  | none => none
  | some s =>
      if env.extract_ok then
        match write_to_storage env.put_ok 0 "all_anime/raw" "all_anime.json"
            "myanimelist" partition_date with
        | Except.ok key =>
            some { error := none, location := some key,
                   dispatches := s.dispatches, put_attempts := 1 }
        | Except.error _ =>
            some { error := some UploadError.storageError, location := none,
                   dispatches := s.dispatches, put_attempts := 1 }
      else
        some { error := some UploadError.keyError, location := none,
               dispatches := s.dispatches, put_attempts := 0 }

/-- `upload_all_anime` (anime.py lines 138-180): when no page count is passed
it probes `get_page_count` and raises `ValueError` on a non-200 status — caught
by the handler, so the run returns `(ex, None)` having fetched and written
nothing; otherwise it runs the fetch/extract/write pipeline. -/
def upload_all_anime (env : UploadEnv) (fuel : Nat) (page_count : Option Int)
    (partition_date : Date) : Option UploadOutcome :=
  match page_count with
  | none =>
      match get_page_count env.page_count_resp with
      | (status, pc) =>
          if status ≠ 200 then
            some { error := some UploadError.valueError, location := none,
                   dispatches := 0, put_attempts := 0 }
          else upload_fetch_extract_write env fuel pc partition_date
  | some pc => upload_fetch_extract_write env fuel pc partition_date

/-! ## Merge/Promote (src/ingest/main.py lines 80-86, src/ingest/utils/db.py)

The three db.py helpers each execute SQL on the shared connection and re-raise
any exception.  `main.py` runs `insert_anime_scores_and_stats`, then
`refresh_views`, then `clear_staging`, then `connection.commit()`, inside a
`try` whose handler logs `psycopg2.DatabaseError`.  psycopg2 connections are
not autocommitting: work on the connection becomes durable only when
`commit()` runs, and an exception skips every later statement including the
commit, rolling the open transaction back. -/

/-- Which of the three SQL calls of the cleanup sequence succeed. -/
structure MergeEnv where
  insert_ok : Bool
  refresh_ok : Bool
  clear_ok : Bool
deriving DecidableEq

/-- A database error raised by one of the db.py helpers. -/
inductive DbError where
  | databaseError
deriving DecidableEq

/-- `insert_anime_scores_and_stats` (db.py lines 39-54): runs the two
materialization procedures, re-raising on failure. -/
def insert_anime_scores_and_stats (ok : Bool) : Except DbError Unit :=
  if ok then Except.ok () else Except.error DbError.databaseError

/-- `refresh_views` (db.py lines 23-36): refreshes the materialized view,
re-raising on failure. -/
def refresh_views (ok : Bool) : Except DbError Unit :=
  if ok then Except.ok () else Except.error DbError.databaseError

/-- `clear_staging` (db.py lines 7-20): truncates `anime_stage.all_anime`,
re-raising on failure. -/
def clear_staging (ok : Bool) : Except DbError Unit :=
  if ok then Except.ok () else Except.error DbError.databaseError

/-- The committed state after the cleanup block. -/
structure MergeOutcome where
  production_updated : Bool
  staging_cleared : Bool
  committed : Bool
  error_logged : Bool
deriving DecidableEq

/-- The cleanup sequence of `main.py` lines 80-86: upsert, refresh, truncate,
then `commit()`.  Any raise reaches the `except psycopg2.DatabaseError` handler
(which only logs), the commit never runs, and the uncommitted upsert/truncate
are rolled back. -/
def cleanup_sequence (env : MergeEnv) : MergeOutcome :=
  match insert_anime_scores_and_stats env.insert_ok with
  | Except.error _ =>
      { production_updated := false, staging_cleared := false,
        committed := false, error_logged := true }
  | Except.ok _ =>
      match refresh_views env.refresh_ok with
      | Except.error _ =>
          { production_updated := false, staging_cleared := false,
            committed := false, error_logged := true }
      | Except.ok _ =>
          match clear_staging env.clear_ok with
          | Except.error _ =>
              { production_updated := false, staging_cleared := false,
                committed := false, error_logged := true }
          | Except.ok _ =>
              { production_updated := true, staging_cleared := true,
                committed := true, error_logged := false }

/-! ## Score flattening (src/transform/transform.py, extract_and_flatten_scores) -/

/-- The raw statistics document for one anime as read back from storage: the
ordered `scores` breakdown (entries opaque) inside `data`, and the `mal_id` tag
the extractor attached. -/
structure AnimeStatsDoc where
  scores : List Nat
  mal_id : Nat
deriving DecidableEq

/-- One flattened score row: the source breakdown entry with the record's
`mal_id` and an `update_time` added. -/
structure FlatScore where
  data : Nat
  mal_id : Nat
  update_time : Nat
deriving DecidableEq

/-- `extract_and_flatten_scores` (transform.py lines 54-66): walks
`anime_stats["data"]["scores"]` in order, adds `mal_id` and `update_time` to
each entry, and appends it to the output. -/
def extract_and_flatten_scores (now : Nat) (anime_stats : AnimeStatsDoc) : List FlatScore :=
  anime_stats.scores.map
    (fun score => { data := score, mal_id := anime_stats.mal_id, update_time := now })

/-! ## Characterization of the retry-loop generations -/

/-- Both branches of `get_anime_page` echo the response status as `res[0]`. -/
lemma get_anime_page_fst (resp : PageResponse) (url : Nat) :
    (get_anime_page resp url).1 = resp.status := by
  unfold get_anime_page
  split <;> rfl

/-- Both branches of `get_stats` echo the response status as `res[0]`. -/
lemma get_stats_fst (resp : StatsResponse) (anime_id : Nat) :
    (get_stats resp anime_id).1 = resp.status := by
  unfold get_stats
  split <;> rfl

/-- The payloads one enumerator generation appends: the 200-filtered slice of
the work-set, in work-set order. -/
lemma enum_success_eq (oracle : Nat → Nat → PageResponse) (gen : Nat) :
    ∀ l : List Nat,
      ((l.map (fun page => get_anime_page (oracle page gen) page)).filter
          (fun res => res.1 == 200)).map (fun res => res.2) =
        (l.filter (fun page => (oracle page gen).status == 200)).map
          (fun page => PageResult.payload (oracle page gen).body) := by
  intro l
  rw [List.filter_map, List.map_map]
  have hfc : l.filter ((fun res : Nat × PageResult => res.1 == 200) ∘
        fun page => get_anime_page (oracle page gen) page) =
      l.filter (fun page => (oracle page gen).status == 200) := by
    apply List.filter_congr
    intro x _
    simp [Function.comp, get_anime_page_fst]
  rw [hfc]
  apply List.map_congr_left
  intro x hx
  have hx200 : (oracle x gen).status = 200 := by
    have := (List.mem_filter.mp hx).2
    simpa using this
  simp [Function.comp, get_anime_page, hx200]

/-- The work-set one enumerator generation hands to the next: exactly the
URLs whose fetch came back 429. -/
lemma enum_retries_eq (oracle : Nat → Nat → PageResponse) (gen : Nat) :
    ∀ l : List Nat,
      ((l.map (fun page => get_anime_page (oracle page gen) page)).filter
          (fun res => res.1 == 429)).map (fun res => res.2.pageOf) =
        l.filter (fun page => (oracle page gen).status == 429) := by
  intro l
  rw [List.filter_map, List.map_map]
  have hfc : l.filter ((fun res : Nat × PageResult => res.1 == 429) ∘
        fun page => get_anime_page (oracle page gen) page) =
      l.filter (fun page => (oracle page gen).status == 429) := by
    apply List.filter_congr
    intro x _
    simp [Function.comp, get_anime_page_fst]
  rw [hfc]
  have hmap : (l.filter (fun page => (oracle page gen).status == 429)).map
        ((fun res : Nat × PageResult => res.2.pageOf) ∘
          fun page => get_anime_page (oracle page gen) page) =
      (l.filter (fun page => (oracle page gen).status == 429)).map id := by
    apply List.map_congr_left
    intro x hx
    have hx429 : (oracle x gen).status = 429 := by
      have := (List.mem_filter.mp hx).2
      simpa using this
    have hne : (oracle x gen).status ≠ 200 := by rw [hx429]; decide
    simp [Function.comp, get_anime_page, hne, PageResult.pageOf]
  rw [hmap, List.map_id]

/-- One enumerator generation, written as filters of the work-set. -/
lemma generate_anime_list_step_eq (oracle : Nat → Nat → PageResponse) (gen : Nat)
    (s : EnumState) :
    generate_anime_list_step oracle gen s =
      { pages := s.pages ++ (s.urls.filter (fun page => (oracle page gen).status == 200)).map
            (fun page => PageResult.payload (oracle page gen).body)
        urls := s.urls.filter (fun page => (oracle page gen).status == 429)
        dispatches := s.dispatches + s.urls.length
        errors := s.errors } := by
  simp only [generate_anime_list_step]
  rw [enum_success_eq, enum_retries_eq]

/-- The documents one batcher generation collects: the 200-filtered slice of
`to_process`, each tagged with its identifier. -/
lemma stats_success_eq (oracle : Nat → Nat → StatsResponse) (gen : Nat) :
    ∀ l : List Nat,
      ((l.map (fun id => get_stats (oracle id gen) id)).filter
          (fun res => res.1 == 200)).map (fun res => res.2) =
        (l.filter (fun id => (oracle id gen).status == 200)).map
          (fun id => StatsPayload.doc (oracle id gen).body id) := by
  intro l
  rw [List.filter_map, List.map_map]
  have hfc : l.filter ((fun res : Nat × StatsPayload => res.1 == 200) ∘
        fun id => get_stats (oracle id gen) id) =
      l.filter (fun id => (oracle id gen).status == 200) := by
    apply List.filter_congr
    intro x _
    simp [Function.comp, get_stats_fst]
  rw [hfc]
  apply List.map_congr_left
  intro x hx
  have hx200 : (oracle x gen).status = 200 := by
    have := (List.mem_filter.mp hx).2
    simpa using this
  simp [Function.comp, get_stats, hx200]

/-- The identifiers one batcher generation re-queues: exactly those whose
fetch came back 429. -/
lemma stats_retries_eq (oracle : Nat → Nat → StatsResponse) (gen : Nat) :
    ∀ l : List Nat,
      ((l.map (fun id => get_stats (oracle id gen) id)).filter
          (fun res => res.1 == 429)).map (fun res => res.2.payloadId) =
        l.filter (fun id => (oracle id gen).status == 429) := by
  intro l
  rw [List.filter_map, List.map_map]
  have hfc : l.filter ((fun res : Nat × StatsPayload => res.1 == 429) ∘
        fun id => get_stats (oracle id gen) id) =
      l.filter (fun id => (oracle id gen).status == 429) := by
    apply List.filter_congr
    intro x _
    simp [Function.comp, get_stats_fst]
  rw [hfc]
  have hmap : (l.filter (fun id => (oracle id gen).status == 429)).map
        ((fun res : Nat × StatsPayload => res.2.payloadId) ∘
          fun id => get_stats (oracle id gen) id) =
      (l.filter (fun id => (oracle id gen).status == 429)).map id := by
    apply List.map_congr_left
    intro x hx
    have hx429 : (oracle x gen).status = 429 := by
      have := (List.mem_filter.mp hx).2
      simpa using this
    have hne : (oracle x gen).status ≠ 200 := by rw [hx429]; decide
    simp [Function.comp, get_stats, hne, StatsPayload.payloadId]
  rw [hmap, List.map_id]

/-- One batcher generation, written as filters of `to_process`. -/
lemma get_anime_stats_step_eq (oracle : Nat → Nat → StatsResponse) (gen : Nat)
    (s : StatsState) :
    get_anime_stats_step oracle gen s =
      { anime_stats := s.anime_stats ++
            (s.to_process.filter (fun id => (oracle id gen).status == 200)).map
              (fun id => StatsPayload.doc (oracle id gen).body id)
        to_process := s.to_process.filter (fun id => (oracle id gen).status == 429)
        total_anime := (s.anime_stats ++
            (s.to_process.filter (fun id => (oracle id gen).status == 200)).map
              (fun id => StatsPayload.doc (oracle id gen).body id)).length +
          (s.to_process.filter (fun id => (oracle id gen).status == 429)).length } := by
  simp only [get_anime_stats_step]
  rw [stats_success_eq, stats_retries_eq]

/-- A drained work-set stops the enumerator loop at once, whatever the fuel. -/
lemma generate_anime_list_run_done (oracle : Nat → Nat → PageResponse) (fuel gen : Nat)
    (s : EnumState) (h : s.urls = []) :
    generate_anime_list_run oracle fuel gen s = some s := by
  cases fuel <;> simp [generate_anime_list_run, h]

/-- Once collected has caught up with the target count, the batcher loop stops
at once, whatever the fuel. -/
lemma get_anime_stats_run_done (oracle : Nat → Nat → StatsResponse) (fuel gen : Nat)
    (s : StatsState) (h : ¬ s.anime_stats.length < s.total_anime) :
    get_anime_stats_run oracle fuel gen s = some s := by
  cases fuel <;> simp [get_anime_stats_run, h]

/-- Unfolding the enumerator loop for one unit of fuel. -/
lemma generate_anime_list_run_succ (oracle : Nat → Nat → PageResponse) (fuel gen : Nat)
    (s : EnumState) :
    generate_anime_list_run oracle (fuel + 1) gen s =
      if s.urls.length > 0 then
        generate_anime_list_run oracle fuel (gen + 1) (generate_anime_list_step oracle gen s)
      else some s := rfl

/-- The enumerator loop out of fuel. -/
lemma generate_anime_list_run_zero (oracle : Nat → Nat → PageResponse) (gen : Nat)
    (s : EnumState) :
    generate_anime_list_run oracle 0 gen s =
      if s.urls.length > 0 then none else some s := rfl

/-- Unfolding the batcher loop for one unit of fuel. -/
lemma get_anime_stats_run_succ (oracle : Nat → Nat → StatsResponse) (fuel gen : Nat)
    (s : StatsState) :
    get_anime_stats_run oracle (fuel + 1) gen s =
      if s.anime_stats.length < s.total_anime then
        get_anime_stats_run oracle fuel (gen + 1) (get_anime_stats_step oracle gen s)
      else some s := rfl

/-- Under an oracle that answers every pending identifier with 429 for `K`
further generations and with 200 at generation `gen + K`, the batcher loop
drains in at most `K + 1` iterations, appending one tagged document per
pending identifier, in work-set order. -/
lemma stats_run_throttle (oracle : Nat → Nat → StatsResponse) :
    ∀ K fuel gen : Nat, ∀ stats : List StatsPayload, ∀ ids : List Nat,
      K + 1 ≤ fuel →
      (∀ id j, j < K → (oracle id (gen + j)).status = 429) →
      (∀ id, (oracle id (gen + K)).status = 200) →
      get_anime_stats_run oracle fuel gen
          { anime_stats := stats, to_process := ids,
            total_anime := stats.length + ids.length } =
        some { anime_stats := stats ++
                 ids.map (fun id => StatsPayload.doc (oracle id (gen + K)).body id)
               to_process := []
               total_anime := (stats ++
                 ids.map (fun id => StatsPayload.doc (oracle id (gen + K)).body id)).length } := by
  intro K
  induction K with
  | zero =>
      intro fuel gen stats ids hfuel h429 h200
      obtain ⟨f, rfl⟩ : ∃ f, fuel = f + 1 := ⟨fuel - 1, by omega⟩
      cases ids with
      | nil =>
          rw [get_anime_stats_run_succ]
          dsimp only
          rw [if_neg (by simp)]
          simp
      | cons a t =>
          rw [get_anime_stats_run_succ]
          dsimp only
          rw [if_pos (by simp only [List.length_cons]; omega)]
          rw [get_anime_stats_step_eq]
          have hall : ∀ id ∈ (a :: t), (oracle id gen).status = 200 := by
            intro id _
            have := h200 id
            simpa using this
          have hf200 : (a :: t).filter (fun id => (oracle id gen).status == 200) = a :: t :=
            List.filter_eq_self.mpr (fun id hid => by simp [hall id hid])
          have hf429 : (a :: t).filter (fun id => (oracle id gen).status == 429) = [] :=
            List.filter_eq_nil_iff.mpr (fun id hid => by simp [hall id hid])
          rw [hf200, hf429]
          rw [get_anime_stats_run_done]
          · simp
          · simp
  | succ K ih =>
      intro fuel gen stats ids hfuel h429 h200
      obtain ⟨f, rfl⟩ : ∃ f, fuel = f + 1 := ⟨fuel - 1, by omega⟩
      cases ids with
      | nil =>
          rw [get_anime_stats_run_succ]
          dsimp only
          rw [if_neg (by simp)]
          simp
      | cons a t =>
          rw [get_anime_stats_run_succ]
          dsimp only
          rw [if_pos (by simp only [List.length_cons]; omega)]
          rw [get_anime_stats_step_eq]
          have hall : ∀ id ∈ (a :: t), (oracle id gen).status = 429 := by
            intro id _
            have := h429 id 0 (Nat.succ_pos K)
            simpa using this
          have hf200 : (a :: t).filter (fun id => (oracle id gen).status == 200) = [] :=
            List.filter_eq_nil_iff.mpr (fun id hid => by simp [hall id hid])
          have hf429 : (a :: t).filter (fun id => (oracle id gen).status == 429) = a :: t :=
            List.filter_eq_self.mpr (fun id hid => by simp [hall id hid])
          rw [hf200, hf429]
          simp only [List.map_nil, List.append_nil, List.length_nil]
          have hidx : gen + (K + 1) = (gen + 1) + K := by omega
          rw [hidx]
          exact ih f (gen + 1) stats (a :: t) (by omega)
            (fun id j hj => by
              have := h429 id (j + 1) (by omega)
              rwa [show gen + (j + 1) = (gen + 1) + j from by omega] at this)
            (fun id => by
              have := h200 id
              rwa [show gen + (K + 1) = (gen + 1) + K from by omega] at this)

/-- A per-page bound on the last rate-limited generation yields a uniform
bound over any finite work-set. -/
lemma exists_uniform_bound (P : Nat → Nat → Prop)
    (h : ∀ page, ∃ B, ∀ g, B ≤ g → P page g) :
    ∀ l : List Nat, ∃ B, ∀ page ∈ l, ∀ g, B ≤ g → P page g := by
  intro l
  induction l with
  | nil => exact ⟨0, by simp⟩
  | cons a t ih =>
      obtain ⟨Ba, ha⟩ := h a
      obtain ⟨Bt, ht⟩ := ih
      refine ⟨max Ba Bt, ?_⟩
      intro page hp g hg
      rcases List.mem_cons.mp hp with rfl | hmem
      · exact ha g (le_trans (le_max_left _ _) hg)
      · exact ht page hmem g (le_trans (le_max_right _ _) hg)

/-- If no page of the work-set is rate-limited at any generation from `B` on,
the enumerator loop drains within `B + 1` iterations: every fetch that is not
a 429 leaves the work-set (either as a payload or as a permanent drop). -/
lemma generate_anime_list_run_terminates (oracle : Nat → Nat → PageResponse) (B : Nat) :
    ∀ fuel gen : Nat, ∀ s : EnumState,
      (∀ page ∈ s.urls, ∀ g, B ≤ g → (oracle page g).status ≠ 429) →
      B + 1 ≤ gen + fuel → (gen ≤ B ∨ s.urls = []) →
      ∃ out, generate_anime_list_run oracle fuel gen s = some out ∧ out.urls = [] := by
  intro fuel
  induction fuel with
  | zero =>
      intro gen s hmem hle hdisj
      have hnil : s.urls = [] := by
        rcases hdisj with h | h
        · omega
        · exact h
      exact ⟨s, generate_anime_list_run_done oracle 0 gen s hnil, hnil⟩
  | succ f ih =>
      intro gen s hmem hle hdisj
      by_cases hnil : s.urls = []
      · exact ⟨s, generate_anime_list_run_done oracle (f + 1) gen s hnil, hnil⟩
      · rw [generate_anime_list_run_succ, if_pos (List.length_pos.mpr hnil)]
        apply ih (gen + 1)
        · intro page hp g hg
          have hpmem : page ∈ s.urls := by
            rw [generate_anime_list_step_eq] at hp
            exact (List.mem_filter.mp hp).1
          exact hmem page hpmem g hg
        · omega
        · by_cases hgen : gen + 1 ≤ B
          · exact Or.inl hgen
          · right
            rw [generate_anime_list_step_eq]
            apply List.filter_eq_nil_iff.mpr
            intro page hpmem
            have hne := hmem page hpmem gen (by omega)
            simp [hne]

/-- Under an oracle that rate-limits every request in every generation, a
nonempty work-set never drains: the loop runs out of any finite fuel. -/
lemma generate_anime_list_run_diverges (oracle : Nat → Nat → PageResponse)
    (hall : ∀ page g, (oracle page g).status = 429) :
    ∀ fuel gen : Nat, ∀ s : EnumState, s.urls ≠ [] →
      generate_anime_list_run oracle fuel gen s = none := by
  intro fuel
  induction fuel with
  | zero =>
      intro gen s h
      rw [generate_anime_list_run_zero, if_pos (List.length_pos.mpr h)]
  | succ f ih =>
      intro gen s h
      rw [generate_anime_list_run_succ, if_pos (List.length_pos.mpr h)]
      apply ih
      rw [generate_anime_list_step_eq]
      dsimp only
      rw [List.filter_eq_self.mpr (fun page _ => by simp [hall page gen])]
      exact h

/-- A stub server on which exactly one page `p` always answers with the
permanent-failure status `st` and every other page succeeds at once. -/
def singleFailureOracle (p st : Nat) (body : Nat → Nat) : Nat → Nat → PageResponse :=
  fun page _ =>
    if page = p then { status := st, body := 0 }
    else { status := 200, body := body page }

/-- Removing one occurrence from a duplicate-free list shortens it by exactly
one. -/
lemma filter_ne_length (p : Nat) :
    ∀ l : List Nat, l.Nodup → p ∈ l →
      (l.filter (fun q => ! (q == p))).length + 1 = l.length := by
  intro l
  induction l with
  | nil => intro _ h; cases h
  | cons a t ih =>
      intro hnd hp
      rcases List.mem_cons.mp hp with rfl | hmem
      · have hpt : p ∉ t := (List.nodup_cons.mp hnd).1
        rw [List.filter_cons]
        have hcond : (! (p == p)) = false := by simp
        rw [hcond]
        have hself : t.filter (fun q => ! (q == p)) = t :=
          List.filter_eq_self.mpr (fun q hq => by
            have hqp : q ≠ p := fun e => hpt (e ▸ hq)
            simp [hqp])
        simp [hself]
      · have hat : a ∉ t := (List.nodup_cons.mp hnd).1
        have hne : a ≠ p := fun e => hat (e ▸ hmem)
        rw [List.filter_cons]
        have hcond : (! (a == p)) = true := by simp [hne]
        rw [hcond]
        have := ih (List.nodup_cons.mp hnd).2 hmem
        simp only [if_true, List.length_cons]
        omega

/-! ## Claim theorems -/

/-- C7: `write_to_storage` writes under the key
`<prefix>/year=<Y>/month=<M>/day=<D>/<filename>` built from the partition date
and returns that key; prefix `all_anime/raw`, date 2022-10-10 and filename
`all_anime.json` yield exactly
`all_anime/raw/year=2022/month=10/day=10/all_anime.json`; and a repeated call
with the same prefix, date and filename resolves to the same key. -/
theorem write_to_storage_partition_key (obj : Nat) (pre filename : String) (d : Date) :
    write_to_storage true obj pre filename "myanimelist" d =
        Except.ok (pre ++ "/" ++
          ("year=" ++ toString d.year ++ "/month=" ++ toString d.month ++
            "/day=" ++ toString d.day) ++ "/" ++ filename)
    ∧ write_to_storage true 0 "all_anime/raw" "all_anime.json" "myanimelist"
          { year := 2022, month := 10, day := 10 } =
        Except.ok "all_anime/raw/year=2022/month=10/day=10/all_anime.json"
    ∧ write_to_storage true obj pre filename "myanimelist" d =
        write_to_storage true obj pre filename "myanimelist" d := by
  refine ⟨rfl, ?_, rfl⟩
  rfl

/-- C8: `extract_and_flatten_scores` keeps the score-breakdown entries in
exactly the source order and tags every entry with the record's identifier. -/
theorem extract_and_flatten_scores_order (now : Nat) (d : AnimeStatsDoc) :
    (extract_and_flatten_scores now d).map FlatScore.data = d.scores
    ∧ (extract_and_flatten_scores now d).map FlatScore.mal_id =
        List.replicate d.scores.length d.mal_id
    ∧ (extract_and_flatten_scores now d).length = d.scores.length := by
  refine ⟨?_, ?_, ?_⟩
  · simp [extract_and_flatten_scores, List.map_map, Function.comp_def]
  · simp [extract_and_flatten_scores, List.map_map, Function.comp_def, List.map_const']
  · simp [extract_and_flatten_scores]

/-- C2 counterexample: in the run where the upsert succeeds and `clear_staging`
fails, the upsert is NOT committed to production — `commit()` comes after
`clear_staging` in main.py, so the raised error skips it and the transaction
rolls back; the failure is non-fatal only in that it is caught and logged. -/
theorem cleanup_clear_failure_rolls_back_cex :
    (cleanup_sequence { insert_ok := true, refresh_ok := true, clear_ok := false }).production_updated
        = false
    ∧ (cleanup_sequence { insert_ok := true, refresh_ok := true, clear_ok := false }).committed
        = false
    ∧ (cleanup_sequence { insert_ok := true, refresh_ok := true, clear_ok := false }).error_logged
        = true := by
  decide

/-- C2 (amended): an upsert failure leaves staging intact and production
unchanged; a `clear_staging` failure after a successful upsert also leaves
production unchanged and staging intact, because the single `commit()` follows
`clear_staging` — the error is merely caught and logged; and staging is
cleared only in runs whose upsert also landed (and then only via the commit). -/
theorem cleanup_sequence_failure_semantics (env : MergeEnv) :
    (env.insert_ok = false →
      cleanup_sequence env =
        { production_updated := false, staging_cleared := false,
          committed := false, error_logged := true })
    ∧ (env.clear_ok = false →
      (cleanup_sequence env).production_updated = false ∧
      (cleanup_sequence env).staging_cleared = false ∧
      (cleanup_sequence env).committed = false ∧
      (cleanup_sequence env).error_logged = true)
    ∧ ((cleanup_sequence env).production_updated = true →
      (cleanup_sequence env).committed = true ∧
      (cleanup_sequence env).staging_cleared = true) := by
  rcases env with ⟨i, r, c⟩
  cases i <;> cases r <;> cases c <;> decide

/-- C2 witness: the amended semantics evaluated at the run where only
`clear_staging` fails. -/
theorem cleanup_sequence_failure_semantics_witness :
    (cleanup_sequence { insert_ok := true, refresh_ok := true, clear_ok := false }).production_updated
        = false
    ∧ (cleanup_sequence { insert_ok := true, refresh_ok := true, clear_ok := false }).staging_cleared
        = false
    ∧ (cleanup_sequence { insert_ok := true, refresh_ok := true, clear_ok := false }).committed
        = false
    ∧ (cleanup_sequence { insert_ok := true, refresh_ok := true, clear_ok := false }).error_logged
        = true :=
  (cleanup_sequence_failure_semantics
      { insert_ok := true, refresh_ok := true, clear_ok := false }).2.1 rfl

/-- C5: a fetch outcome is classified into exactly one of Success (200 with
the body), RateLimited (429 with the request descriptor) or OtherFailure (any
other status, with the descriptor); the cases are mutually exclusive and
exhaustive over all status codes, and a transport error propagates as an
error, never as a Success. -/
theorem fetcher_classification (resp : PageResponse) (url : Nat) (e : TransportError)
    (sresp : StatsResponse) (anime_id : Nat) :
    ((resp.status = 200 ∧ get_anime_page resp url = (resp.status, PageResult.payload resp.body))
      ∨ (resp.status = 429 ∧ get_anime_page resp url = (resp.status, PageResult.url url))
      ∨ (resp.status ≠ 200 ∧ resp.status ≠ 429 ∧
          get_anime_page resp url = (resp.status, PageResult.url url)))
    ∧ ¬ (resp.status = 200 ∧ resp.status = 429)
    ∧ ¬ (resp.status = 200 ∧ resp.status ≠ 200)
    ∧ ¬ (resp.status = 429 ∧ resp.status ≠ 429)
    ∧ (∀ b page, PageResult.payload b ≠ PageResult.url page)
    ∧ get_anime_pageE (Except.error e) url = Except.error e
    ∧ (∀ st b, get_anime_pageE (Except.error e) url ≠ Except.ok (st, PageResult.payload b))
    ∧ ((sresp.status = 200 ∧
          get_stats sresp anime_id = (sresp.status, StatsPayload.doc sresp.body anime_id))
      ∨ (sresp.status = 429 ∧
          get_stats sresp anime_id = (sresp.status, StatsPayload.ident anime_id))
      ∨ (sresp.status ≠ 200 ∧ sresp.status ≠ 429 ∧
          get_stats sresp anime_id = (sresp.status, StatsPayload.ident anime_id))) := by
  refine ⟨?_, by omega, by tauto, by tauto, ?_, rfl, ?_, ?_⟩
  · by_cases h200 : resp.status = 200
    · exact Or.inl ⟨h200, by simp [get_anime_page, h200]⟩
    · by_cases h429 : resp.status = 429
      · exact Or.inr (Or.inl ⟨h429, by simp [get_anime_page, h200]⟩)
      · exact Or.inr (Or.inr ⟨h200, h429, by simp [get_anime_page, h200]⟩)
  · intro b page hcontra
    cases hcontra
  · intro st b hcontra
    cases hcontra
  · by_cases h200 : sresp.status = 200
    · exact Or.inl ⟨h200, by simp [get_stats, h200]⟩
    · by_cases h429 : sresp.status = 429
      · exact Or.inr (Or.inl ⟨h429, by simp [get_stats, h200]⟩)
      · exact Or.inr (Or.inr ⟨h200, h429, by simp [get_stats, h200]⟩)

/-- C5 witness: the classification evaluated at a permanent-failure response,
a rate-limited statistics response and a transport error. -/
theorem fetcher_classification_witness :
    (((404 : Nat) = 200 ∧ get_anime_page { status := 404, body := 3 } 7 =
          (404, PageResult.payload 3))
      ∨ ((404 : Nat) = 429 ∧ get_anime_page { status := 404, body := 3 } 7 =
          (404, PageResult.url 7))
      ∨ ((404 : Nat) ≠ 200 ∧ (404 : Nat) ≠ 429 ∧
          get_anime_page { status := 404, body := 3 } 7 = (404, PageResult.url 7)))
    ∧ get_anime_pageE (Except.error ⟨1⟩) 7 = Except.error ⟨1⟩ := by
  have h := fetcher_classification { status := 404, body := 3 } 7 ⟨1⟩
      { status := 429, body := 5 } 11
  exact ⟨h.1, h.2.2.2.2.2.1⟩

/-- C6: when the page-count probe does not return 200, `get_page_count` pairs
the status with 0, `upload_all_anime` raises (and returns) the configuration
error, and neither a page fetch nor a storage put happens. -/
theorem upload_all_anime_aborts_on_page_count_failure (env : UploadEnv) (fuel : Nat)
    (d : Date) (h : env.page_count_resp.status ≠ 200) :
    upload_all_anime env fuel none d =
        some { error := some UploadError.valueError, location := none,
               dispatches := 0, put_attempts := 0 }
    ∧ get_page_count env.page_count_resp = (env.page_count_resp.status, 0) := by
  constructor
  · simp [upload_all_anime, get_page_count, h]
  · simp [get_page_count, h]

/-- C6 witness: a 500 probe response aborts the run before any fetch. -/
theorem upload_all_anime_aborts_witness :
    upload_all_anime
        { page_count_resp := { status := 500, last_visible_page := 7 },
          oracle := fun _ _ => { status := 200, body := 0 },
          extract_ok := true, put_ok := true } 3 none
        { year := 2022, month := 10, day := 10 } =
      some { error := some UploadError.valueError, location := none,
             dispatches := 0, put_attempts := 0 } :=
  (upload_all_anime_aborts_on_page_count_failure _ 3 _ (by decide)).1

/-- C10: a page count at most 0 (including the 0 paired with a failed probe)
yields an empty URL work-set: no fetch is dispatched and the enumerator
returns the empty list. -/
theorem generate_anime_list_empty_on_nonpositive (oracle : Nat → Nat → PageResponse)
    (fuel : Nat) (page_count : Int) (resp : PageCountResponse)
    (hpc : page_count ≤ 0) (hresp : resp.status ≠ 200) :
    generate_anime_list oracle fuel page_count =
        some { pages := [], urls := [], dispatches := 0, errors := [] }
    ∧ get_page_count resp = (resp.status, 0) := by
  constructor
  · have h0 : page_count.toNat = 0 := Int.toNat_eq_zero.mpr hpc
    unfold generate_anime_list
    rw [h0]
    exact generate_anime_list_run_done oracle fuel 0 _ rfl
  · simp [get_page_count, hresp]

/-- C10 witness: page count -3 (and a 404 probe) fetches nothing. -/
theorem generate_anime_list_empty_witness :
    generate_anime_list (fun _ _ => { status := 200, body := 0 }) 4 (-3) =
        some { pages := [], urls := [], dispatches := 0, errors := [] }
    ∧ get_page_count { status := 404, last_visible_page := 9 } = (404, 0) :=
  generate_anime_list_empty_on_nonpositive (fun _ _ => { status := 200, body := 0 }) 4 (-3)
    { status := 404, last_visible_page := 9 } (by decide) (by decide)

/-- C3 counterexample: with pages {1, 2} and page 1 permanently failing (404),
the run returns the one successful payload but records NO dropped-page error —
the loop body discards non-200/429 results without logging, so the claimed
"records one dropped-page error" is false. -/
theorem generate_anime_list_silent_drop_cex :
    (generate_anime_list (singleFailureOracle 1 404 (fun q => q)) 1 2).map EnumState.errors
        = some []
    ∧ (generate_anime_list (singleFailureOracle 1 404 (fun q => q)) 1 2).map
        (fun s => s.pages.length) = some 1 := by
  decide

/-- C3 (amended): with N pages of which exactly one returns a permanent
failure (neither 200 nor 429) and the rest succeed, the run returns the N-1
successful payloads in page order, does not abort, dispatches each page
exactly once (so the failed page is never retried), and records nothing for
the dropped page — the drop is silent. -/
theorem generate_anime_list_partial_failure (N p st : Nat) (body : Nat → Nat) (fuel : Nat)
    (hp : p ∈ List.range' 1 N) (h200 : st ≠ 200) (h429 : st ≠ 429) :
    ∃ s, generate_anime_list (singleFailureOracle p st body) (fuel + 1) (Int.ofNat N) = some s
      ∧ s.pages = ((List.range' 1 N).filter (fun q => ! (q == p))).map
          (fun q => PageResult.payload (body q))
      ∧ s.pages.length + 1 = N
      ∧ s.urls = []
      ∧ s.dispatches = N
      ∧ s.errors = [] := by
  have htoNat : (Int.ofNat N).toNat = N := rfl
  have hNpos : 0 < N := by
    have := List.mem_range'_1.mp hp
    omega
  have hlen : (List.range' 1 N).length = N := by simp
  unfold generate_anime_list
  rw [htoNat]
  rw [generate_anime_list_run_succ, if_pos (by rw [hlen]; exact hNpos)]
  rw [generate_anime_list_step_eq]
  have hf200 : (List.range' 1 N).filter
        (fun q => (singleFailureOracle p st body q 0).status == 200) =
      (List.range' 1 N).filter (fun q => ! (q == p)) := by
    apply List.filter_congr
    intro q _
    by_cases hq : q = p
    · simp [singleFailureOracle, hq, h200]
    · simp [singleFailureOracle, hq]
  have hf429 : (List.range' 1 N).filter
        (fun q => (singleFailureOracle p st body q 0).status == 429) = [] := by
    apply List.filter_eq_nil_iff.mpr
    intro q _
    by_cases hq : q = p
    · simp [singleFailureOracle, hq, h429]
    · simp [singleFailureOracle, hq]
  rw [hf200, hf429]
  have hmap : ((List.range' 1 N).filter (fun q => ! (q == p))).map
        (fun q => PageResult.payload (singleFailureOracle p st body q 0).body) =
      ((List.range' 1 N).filter (fun q => ! (q == p))).map
        (fun q => PageResult.payload (body q)) := by
    apply List.map_congr_left
    intro q hq
    have hqp : q ≠ p := by
      have := (List.mem_filter.mp hq).2
      simpa using this
    simp [singleFailureOracle, hqp]
  rw [hmap]
  rw [generate_anime_list_run_done _ fuel 1 _ rfl]
  refine ⟨_, rfl, by simp, ?_, rfl, by simp [hlen], rfl⟩
  have := filter_ne_length p (List.range' 1 N) (List.nodup_range' 1 N) hp
  simp only [List.length_map, List.nil_append]
  omega

/-- C3 witness: the amended partial-failure behavior evaluated at two pages
with page 1 returning 404. -/
theorem generate_anime_list_partial_failure_witness :
    ∃ s, generate_anime_list (singleFailureOracle 1 404 (fun q => q)) (0 + 1) (Int.ofNat 2)
        = some s
      ∧ s.pages = ((List.range' 1 2).filter (fun q => ! (q == 1))).map
          (fun q => PageResult.payload q)
      ∧ s.pages.length + 1 = 2
      ∧ s.urls = []
      ∧ s.dispatches = 2
      ∧ s.errors = [] :=
  generate_anime_list_partial_failure 2 1 404 (fun q => q) 0
    (by decide) (by decide) (by decide)

/-- C4: if every page URL is rate-limited only finitely often, the retry loop
of `generate_anime_list` terminates with the work-set fully resolved; and
since no retry cap bounds the iterations, an oracle that rate-limits every
request in every generation makes the loop exhaust any finite fuel — it never
terminates. -/
theorem generate_anime_list_termination (oracle : Nat → Nat → PageResponse)
    (page_count : Int) :
    ((∀ page, ∃ B, ∀ g, B ≤ g → (oracle page g).status ≠ 429) →
      ∃ fuel s, generate_anime_list oracle fuel page_count = some s ∧ s.urls = [])
    ∧ ((∀ page g, (oracle page g).status = 429) → 0 < page_count →
      ∀ fuel, generate_anime_list oracle fuel page_count = none) := by
  constructor
  · intro h
    obtain ⟨B, hB⟩ := exists_uniform_bound (fun page g => (oracle page g).status ≠ 429) h
      (List.range' 1 page_count.toNat)
    obtain ⟨out, hrun, hout⟩ := generate_anime_list_run_terminates oracle B (B + 1) 0
      { pages := [], urls := List.range' 1 page_count.toNat, dispatches := 0, errors := [] }
      hB (by omega) (Or.inl (by omega))
    exact ⟨B + 1, out, hrun, hout⟩
  · intro hall hpos fuel
    apply generate_anime_list_run_diverges oracle hall
    have htn : 0 < page_count.toNat := by omega
    dsimp only
    intro hnil
    have := congrArg List.length hnil
    simp at this
    omega

/-- C4 witness: a never-throttling oracle drains three pages; an
always-throttling oracle exhausts fuel 7 on one page. -/
theorem generate_anime_list_termination_witness :
    (∃ fuel s, generate_anime_list (fun _ _ => { status := 200, body := 5 }) fuel 3 = some s
        ∧ s.urls = [])
    ∧ generate_anime_list (fun _ _ => { status := 429, body := 0 }) 7 1 = none :=
  ⟨(generate_anime_list_termination (fun _ _ => { status := 200, body := 5 }) 3).1
      (fun _ => ⟨0, fun _ _ => by decide⟩),
    (generate_anime_list_termination (fun _ _ => { status := 429, body := 0 }) 1).2
      (fun _ _ => rfl) (by decide) 7⟩

/-- C1: with N distinct identifiers and a stub answering each identifier's
first K calls with 429 and every later call with 200, `get_anime_stats`
returns exactly N stat records in input order, each tagged with its
identifier, with no duplicates; and in every generation the next work-set
keeps only the 429 identifiers, so an identifier is never dispatched again
after its first success. -/
theorem get_anime_stats_completeness_under_throttling (K : Nat) (body : Nat → Nat)
    (anime_ids : List Nat) (h : anime_ids.Nodup) :
    get_anime_stats (throttleOracle K body) (K + 1) anime_ids =
        some (anime_ids.map (fun id => StatsPayload.doc (body id) id))
    ∧ (anime_ids.map (fun id => StatsPayload.doc (body id) id)).length = anime_ids.length
    ∧ (anime_ids.map (fun id => StatsPayload.doc (body id) id)).map StatsPayload.payloadId
        = anime_ids
    ∧ (anime_ids.map (fun id => StatsPayload.doc (body id) id)).Nodup
    ∧ ∀ gen s, (get_anime_stats_step (throttleOracle K body) gen s).to_process =
        s.to_process.filter (fun id => (throttleOracle K body id gen).status == 429) := by
  refine ⟨?_, by simp, ?_, ?_, ?_⟩
  · unfold get_anime_stats
    have hrun := stats_run_throttle (throttleOracle K body) K (K + 1) 0 [] anime_ids
      (le_refl _)
      (fun id j hj => by simp [throttleOracle, Nat.zero_add, hj])
      (fun id => by simp [throttleOracle])
    simp only [List.length_nil, Nat.zero_add] at hrun
    rw [hrun]
    simp [throttleOracle]
  · simp [List.map_map, Function.comp_def, StatsPayload.payloadId]
  · refine (List.nodup_map_iff_inj_on h).mpr ?_
    intro x _ y _ hxy
    have := StatsPayload.doc.inj hxy
    exact this.2
  · intro gen s
    rw [get_anime_stats_step_eq]

/-- C1 witness: identifiers [5, 9] with one 429 round each are all collected
exactly once, tagged, in order. -/
theorem get_anime_stats_completeness_witness :
    get_anime_stats (throttleOracle 1 (fun id => id + 100)) 2 [5, 9] =
      some [StatsPayload.doc 105 5, StatsPayload.doc 109 9] := by
  have := (get_anime_stats_completeness_under_throttling 1 (fun id => id + 100) [5, 9]
      (by decide)).1
  simpa using this

/-- Case analysis of the fetch/extract/write tail of `upload_all_anime`: every
returned outcome has exactly one of (error, location) set, and a `none` error
comes with the storage key the write succeeded under. -/
lemma upload_fetch_extract_write_cases (env : UploadEnv) (fuel : Nat) (pc : Int)
    (d : Date) (r : UploadOutcome)
    (h : upload_fetch_extract_write env fuel pc d = some r) :
    r.error.isNone = r.location.isSome
    ∧ (r.error = none → ∃ k, r.location = some k ∧
        write_to_storage env.put_ok 0 "all_anime/raw" "all_anime.json" "myanimelist" d =
          Except.ok k) := by
  unfold upload_fetch_extract_write at h
  cases hg : generate_anime_list env.oracle fuel pc with
  | none =>
      rw [hg] at h
      exact absurd h (by simp)
  | some s =>
      rw [hg] at h
      dsimp only at h
      by_cases he : env.extract_ok
      · rw [if_pos he] at h
        cases hw : write_to_storage env.put_ok 0 "all_anime/raw" "all_anime.json"
            "myanimelist" d with
        | ok key =>
            rw [hw] at h
            have hr := Option.some.inj h
            subst hr
            exact ⟨rfl, fun _ => ⟨key, rfl, rfl⟩⟩
        | error err =>
            rw [hw] at h
            have hr := Option.some.inj h
            subst hr
            exact ⟨rfl, fun habs => absurd habs (by simp)⟩
      · rw [if_neg he] at h
        have hr := Option.some.inj h
        subst hr
        exact ⟨rfl, fun habs => absurd habs (by simp)⟩

/-- C9: every terminating execution of `upload_all_anime` returns a pair with
exactly one of (error, location) set: `(None, k)` with `k` the storage key on
success, `(ex, None)` when any step raised. -/
theorem upload_all_anime_error_location_exclusive (env : UploadEnv) (fuel : Nat)
    (page_count : Option Int) (d : Date) (r : UploadOutcome)
    (h : upload_all_anime env fuel page_count d = some r) :
    r.error.isNone = r.location.isSome
    ∧ (r.error = none → ∃ k, r.location = some k ∧
        write_to_storage env.put_ok 0 "all_anime/raw" "all_anime.json" "myanimelist" d =
          Except.ok k) := by
  unfold upload_all_anime at h
  cases page_count with
  | some pc => exact upload_fetch_extract_write_cases env fuel pc d r h
  | none =>
      cases hgp : get_page_count env.page_count_resp with
      | mk status pc =>
          rw [hgp] at h
          dsimp only at h
          by_cases hs : status ≠ 200
          · rw [if_pos hs] at h
            have hr := Option.some.inj h
            subst hr
            exact ⟨rfl, fun habs => absurd habs (by simp)⟩
          · rw [if_neg hs] at h
            exact upload_fetch_extract_write_cases env fuel pc d r h

/-- C9 witness: a fully successful one-page run returns `(None, key)`. -/
theorem upload_all_anime_exclusive_witness :
    ({ error := none,
       location := some "all_anime/raw/year=2022/month=10/day=10/all_anime.json",
       dispatches := 1, put_attempts := 1 } : UploadOutcome).error.isNone =
      ({ error := none,
         location := some "all_anime/raw/year=2022/month=10/day=10/all_anime.json",
         dispatches := 1, put_attempts := 1 } : UploadOutcome).location.isSome :=
  (upload_all_anime_error_location_exclusive
      { page_count_resp := { status := 200, last_visible_page := 1 },
        oracle := fun _ _ => { status := 200, body := 42 },
        extract_ok := true, put_ok := true } 1 (some 1)
      { year := 2022, month := 10, day := 10 } _ rfl).1

end MAL
